import Mathlib

/-!
Verification development for the TransMedix backend (Node/Express over
MongoDB with Socket.IO). The JavaScript controllers, Mongoose schema
methods and route middleware are shallowly embedded as pure Lean
functions: database documents become records, Mongoose save middleware
becomes an explicit function applied on save, HTTP responses become a
record of the status code and the JSON body fields the controllers set,
and Socket.IO emissions become values of a SocketEvent record. Mongo
ObjectId references are modelled by the string identifiers the schemas
generate (sessionId, summaryId, transcriptionId). JavaScript truthiness
of optional strings and booleans is modelled explicitly (absent and the
empty string are falsy). Asynchronous continuations (the .then and
.catch callbacks attached to the external-API promises) are embedded as
separate functions from the request phase, mirroring the fact that the
HTTP response is computed without them.
-/

namespace TransMedix

/-- Truthiness of an optional string in JavaScript: undefined and the
empty string are falsy, every other string is truthy. -/
def jsTruthyStr : Option String → Bool
  | none => false
  | some s => s != ""

/-- The JavaScript idiom (x || d) on an optional string: the default d
is used when x is absent or empty. -/
def jsOrDefault (x : Option String) (d : String) : String :=
  match x with
  | some s => if s != "" then s else d
  | none => d

/-- JavaScript Math.round(x / d) for integers x and positive d:
floor(x / d + 1/2), computed as the floor division of (2x + d) by 2d.
Ties round toward positive infinity, as Math.round does. -/
def jsRoundDiv (x d : Int) : Int :=
  Int.fdiv (2 * x + d) (2 * d)

/-- Duration in minutes between two epoch-millisecond instants, as
computed by Math.round((endTime - startTime) / (1000 * 60)) in the
session schema (src/unnamed/part_000). -/
def durationMinutes (startMs endMs : Int) : Int :=
  jsRoundDiv (endMs - startMs) 60000

/-- Whitespace test of the JavaScript trim setter, restricted to the
ASCII whitespace characters. -/
def jsIsWs (c : Char) : Bool :=
  c == ' ' || c == '\t' || c == '\n' || c == '\r'

/-- The trim setter Mongoose applies to string paths declared with
trim, modelling String.prototype.trim. -/
def strTrim (s : String) : String :=
  String.mk (((s.data.dropWhile jsIsWs).reverse.dropWhile jsIsWs).reverse)

/-- Result of a JavaScript property read on an object literal: an own
string property, an inherited Object.prototype property (a truthy
function or object value), or undefined. -/
inductive JsValue where
  | undef : JsValue
  | str : String → JsValue
  | inherited : String → JsValue
deriving DecidableEq

/-- The own property names of Object.prototype in ECMAScript, each
bound to a truthy function or object value and reachable from any
object literal through the prototype chain. -/
def objectProtoKeys : List String :=
  ["constructor", "hasOwnProperty", "isPrototypeOf", "propertyIsEnumerable",
   "toLocaleString", "toString", "valueOf", "__proto__",
   "__defineGetter__", "__defineSetter__", "__lookupGetter__", "__lookupSetter__"]

/-- A JavaScript property read obj[key] on an object literal whose own
properties are the association list own: an own hit yields its string
value, a miss falls through to the Object.prototype chain. -/
def jsObjectGet (own : List (String × String)) (key : String) : JsValue :=
  match own.lookup key with
  | some v => JsValue.str v
  | none => if key ∈ objectProtoKeys then JsValue.inherited key else JsValue.undef

/-- Truthiness of a JavaScript value: undefined and the empty string
are falsy; inherited functions and objects are truthy. -/
def jsTruthyVal : JsValue → Bool
  | JsValue.undef => false
  | JsValue.str s => s != ""
  | JsValue.inherited _ => true

/-! ## transcriptionService.getLanguageCode (src/unnamed/part_005) -/

/-- The static language lookup table of
transcriptionService.getLanguageCode, embedded as an association list
in source order. -/
def languageMap : List (String × String) :=
  [("en", "en-US"), ("hi", "hi-IN"), ("bn", "bn-IN"), ("te", "te-IN"),
   ("mr", "mr-IN"), ("ta", "ta-IN"), ("gu", "gu-IN"), ("kn", "kn-IN")]

/-- transcriptionService.getLanguageCode: the property read
languageMap[language] followed by the fallback (|| 'en-US'). The read
goes through the prototype chain, so a key such as toString yields the
inherited truthy value, which skips the fallback and is returned as
is. -/
def getLanguageCode (language : String) : JsValue :=
  let v := jsObjectGet languageMap language
  if jsTruthyVal v then v else JsValue.str "en-US"

/-! ## Upload route middleware (src/unnamed/part_006) -/

/-- The audio MIME-type allowlist of the multer fileFilter in the API
router. -/
def allowedMimes : List String :=
  ["audio/wav", "audio/mpeg", "audio/mp3", "audio/mp4",
   "audio/m4a", "audio/webm", "audio/ogg"]

/-- The multer fileFilter: accept the file when its mimetype is in the
allowlist, otherwise fail with the invalid-file-type error message. -/
def fileFilter (mimetype : String) : Except String Unit :=
  if mimetype ∈ allowedMimes then Except.ok ()
  else Except.error "Invalid file type. Only audio files are allowed."

/-! ## Data model (Mongoose schemas, src/unnamed/part_000, part_001,
src/backend/models/transcription.js) -/

/-- One entry of the editHistory array of the Transcription schema.
The editedAt Date is modelled as epoch milliseconds. -/
structure EditEntry where
  originalText : String
  editedText : String
  editedAt : Int
  editedBy : String
deriving DecidableEq

/-- A Transcription document: the fields the embedded controllers read
or write. audioFile metadata that no claim touches is carried as the
mimeType only. -/
structure TranscriptionRec where
  transcriptionId : String
  sessionRef : String
  transcriptionText : String := ""
  confidence : Int := 0
  status : String := "processing"
  isEdited : Bool := false
  editHistory : List EditEntry := []
  speaker : String := "unknown"
  mimeType : String := ""
deriving DecidableEq

/-- A Summary document: the fields the summary controller reads or
writes, together with the three content sections the schema declares
required (chiefComplaint, assessment, plan); the optional content
sections play no role in any claim and are omitted. -/
structure SummaryRec where
  summaryId : String
  sessionRef : String
  status : String := "generating"
  chiefComplaint : Option String := none
  assessment : Option String := none
  plan : Option String := none
deriving DecidableEq

/-- The status enum of the Summary schema. -/
def summaryStatusEnum : List String :=
  ["generating", "completed", "failed", "reviewing"]

/-- Document validation run by summary.save(): each required content
section must be present and trim to a nonempty string, and status must
lie in its enum. -/
def summaryValid (s : SummaryRec) : Bool :=
  (match s.chiefComplaint with | some c => strTrim c != "" | none => false) &&
  (match s.assessment with | some a => strTrim a != "" | none => false) &&
  (match s.plan with | some p => strTrim p != "" | none => false) &&
  summaryStatusEnum.contains s.status

/-- summary.save(): Mongoose validates the document and the returned
promise rejects on a schema violation, otherwise the document is
persisted. -/
def summarySave (s : SummaryRec) : Except Unit SummaryRec :=
  if summaryValid s then Except.ok s else Except.error ()

/-- A Session document. The transcriptions array and the summary field
hold references, modelled by the referenced string identifiers. Dates
are epoch milliseconds. -/
structure SessionRec where
  sessionId : String
  doctorName : String := ""
  doctorId : String := ""
  sessionType : String := "consultation"
  department : String := ""
  priority : String := "normal"
  notes : String := ""
  startTime : Option Int := none
  endTime : Option Int := none
  duration : Int := 0
  status : String := "active"
  transcriptions : List String := []
  summary : Option String := none
deriving DecidableEq

/-- The pre-save middleware of the session schema: whenever both
startTime and endTime are set, duration is recomputed as the rounded
minute difference. -/
def sessionPreSave (s : SessionRec) : SessionRec :=
  match s.startTime, s.endTime with
  | some st, some et => { s with duration := durationMinutes st et }
  | _, _ => s

/-- session.save(): persisting a session document runs the pre-save
middleware. -/
def sessionSave (s : SessionRec) : SessionRec :=
  sessionPreSave s

/-- sessionSchema.methods.endSession: set endTime to now, set status to
completed, recompute duration, then save. When startTime is unset the
JavaScript subtraction would produce NaN; that corner is left with the
previous duration and is outside every claim, which all assume a set
startTime. -/
def endSessionMethod (s : SessionRec) (now : Int) : SessionRec :=
  let s1 : SessionRec := { s with endTime := some now, status := "completed" }
  let s2 : SessionRec :=
    match s1.startTime with
    | some st => { s1 with duration := durationMinutes st now }
    | none => s1
  sessionSave s2

/-! ## HTTP responses and socket events -/

/-- An HTTP response as the controllers build it: the status code and
the JSON body fields that appear across the embedded handlers. A field
is none when the handler does not put it in the body. The body key
named status is modelled as bodyStatus. -/
structure HttpResponse where
  status : Nat
  error : Option String := none
  message : Option String := none
  bodyStatus : Option String := none
  summaryId : Option String := none
  transcriptionId : Option String := none
deriving DecidableEq

/-- A Socket.IO emission to a session room:
io.to(room).emit(event, payload). Only the payload fields the claims
mention are modelled. -/
structure SocketEvent where
  room : String
  event : String
  payloadId : String := ""
  payloadError : Option String := none
deriving DecidableEq

/-! ## sessionController (src/backend/controllers/sessionController.js) -/

/-- Result of the endSession endpoint: the response and the session
document as stored after the call (none when the lookup failed). -/
structure EndSessionResult where
  response : HttpResponse
  storedSession : Option SessionRec
deriving DecidableEq

/-- sessionController.endSession: 404 when the session is missing, 400
when its status is already completed, otherwise run the schema
endSession method and, when truthy notes were supplied, set them and
save again. -/
def endSessionController (session : Option SessionRec) (notes : Option String)
    (now : Int) : EndSessionResult :=
  match session with
  | none =>
      { response := { status := 404, error := some "Session not found",
                      message := some "The specified session does not exist" },
        storedSession := none }
  | some s =>
      if s.status = "completed" then
        { response := { status := 400, error := some "Session already completed",
                        message := some "This session has already been ended" },
          storedSession := some s }
      else
        let s1 := endSessionMethod s now
        let s2 := if jsTruthyStr notes then
                    sessionSave { s1 with notes := notes.getD "" }
                  else s1
        { response := { status := 200, message := some "Session ended successfully" },
          storedSession := some s2 }

/-- The request body of the updateSession endpoint: each field is
present (some) or absent (none). The first four fields are the ones
the controller deletes before applying the update. -/
structure SessionUpdateBody where
  sessionIdB : Option String := none
  startTimeB : Option Int := none
  transcriptionsB : Option (List String) := none
  summaryB : Option (Option String) := none
  doctorNameB : Option String := none
  doctorIdB : Option String := none
  sessionTypeB : Option String := none
  departmentB : Option String := none
  priorityB : Option String := none
  notesB : Option String := none
  statusB : Option String := none
  endTimeB : Option Int := none
deriving DecidableEq

/-- The sessionType enum of the session schema. -/
def sessionTypeEnum : List String :=
  ["consultation", "follow-up", "emergency", "routine-checkup", "specialist"]

/-- The priority enum of the session schema. -/
def priorityEnum : List String := ["low", "normal", "high", "urgent"]

/-- The status enum of the session schema. -/
def sessionStatusEnum : List String :=
  ["active", "completed", "cancelled", "paused"]

/-- The update validators that findByIdAndUpdate runs because the
controller passes runValidators true: every path present in the update
object is checked against its schema declaration after the trim
setters have run, so a supplied doctorName must trim to a nonempty
string (it is required) and supplied sessionType, priority and status
values must lie in their enums. -/
def sessionUpdateValid (u : SessionUpdateBody) : Bool :=
  (match u.doctorNameB with | some d => strTrim d != "" | none => true) &&
  (match u.sessionTypeB with | some t => sessionTypeEnum.contains t | none => true) &&
  (match u.priorityB with | some p => priorityEnum.contains p | none => true) &&
  (match u.statusB with | some st => sessionStatusEnum.contains st | none => true)

/-- The four delete statements of sessionController.updateSession:
sessionId, startTime, transcriptions and summary are removed from the
update object before it reaches the database. -/
def sanitizeSessionUpdates (u : SessionUpdateBody) : SessionUpdateBody :=
  { u with sessionIdB := none, startTimeB := none,
           transcriptionsB := none, summaryB := none }

/-- findByIdAndUpdate applied to a session with a valid update object:
every field present in the update is set, after the trim setters on
the paths declared with trim (doctorName, doctorId, department,
notes); every absent field keeps its stored value. Save middleware
does not run on findByIdAndUpdate. -/
def applySessionUpdate (s : SessionRec) (u : SessionUpdateBody) : SessionRec :=
  { s with
    sessionId := u.sessionIdB.getD s.sessionId
    startTime := match u.startTimeB with | some t => some t | none => s.startTime
    transcriptions := u.transcriptionsB.getD s.transcriptions
    summary := u.summaryB.getD s.summary
    doctorName := (u.doctorNameB.map strTrim).getD s.doctorName
    doctorId := (u.doctorIdB.map strTrim).getD s.doctorId
    sessionType := u.sessionTypeB.getD s.sessionType
    department := (u.departmentB.map strTrim).getD s.department
    priority := u.priorityB.getD s.priority
    notes := (u.notesB.map strTrim).getD s.notes
    status := u.statusB.getD s.status
    endTime := match u.endTimeB with | some t => some t | none => s.endTime }

/-- Result of the updateSession endpoint. -/
structure UpdateSessionResult where
  response : HttpResponse
  storedSession : Option SessionRec
deriving DecidableEq

/-- sessionController.updateSession: delete the protected fields from
the request body, then findByIdAndUpdate with runValidators true. A
validator violation makes the returned promise reject before any
write, so the controller catch answers 500 and the stored session is
unchanged; otherwise a missing session gives 404 and a found one is
updated and answered with 200. -/
def updateSessionController (session : Option SessionRec)
    (body : SessionUpdateBody) : UpdateSessionResult :=
  let updates := sanitizeSessionUpdates body
  if ¬ sessionUpdateValid updates then
    { response := { status := 500, error := some "Internal server error",
                    message := some "Failed to update session" },
      storedSession := session }
  else
    match session with
    | none =>
        { response := { status := 404, error := some "Session not found",
                        message := some "The specified session does not exist" },
          storedSession := none }
    | some s =>
        { response := { status := 200, message := some "Session updated successfully" },
          storedSession := some (applySessionUpdate s updates) }

/-! ## transcriptionController (second file in
src/backend/controllers/sessionController.js) -/

/-- The multer file object handed to uploadAudio; only the fields the
embedded code reads are kept. -/
structure AudioFile where
  originalname : String := ""
  filename : String := ""
  mimetype : String := ""
  size : Int := 0
deriving DecidableEq

/-- Result of the request phase of uploadAudio: the immediate HTTP
response, the Transcription record created and saved before the
response (none when a validation branch returned early), and whether
the asynchronous transcription work was started. -/
structure UploadAudioResult where
  response : HttpResponse
  createdTranscription : Option TranscriptionRec
  asyncStarted : Bool
deriving DecidableEq

/-- Request phase of transcriptionController.uploadAudio: validate the
file and session id, look up the session, create a processing
Transcription record, start the asynchronous transcription, and answer
202 with body status processing. The .then/.catch continuations are
embedded separately below. -/
def uploadAudioController (audioFile : Option AudioFile)
    (sessionIdB : Option String) (session : Option SessionRec)
    (freshTranscriptionId : String) : UploadAudioResult :=
  match audioFile with
  | none =>
      { response := { status := 400, error := some "No audio file provided",
                      message := some "Please upload an audio file" },
        createdTranscription := none, asyncStarted := false }
  | some file =>
      if ¬ jsTruthyStr sessionIdB then
        { response := { status := 400, error := some "Session ID required",
                        message := some "Please provide a valid session ID" },
          createdTranscription := none, asyncStarted := false }
      else
        match session with
        | none =>
            { response := { status := 404, error := some "Session not found",
                            message := some "The specified session does not exist" },
              createdTranscription := none, asyncStarted := false }
        | some _ =>
            let t : TranscriptionRec :=
              { transcriptionId := freshTranscriptionId,
                sessionRef := sessionIdB.getD "",
                transcriptionText := "", status := "processing",
                mimeType := file.mimetype }
            { response := { status := 202,
                            message := some "Audio uploaded successfully, transcription in progress",
                            transcriptionId := some freshTranscriptionId,
                            bodyStatus := some "processing" },
              createdTranscription := some t, asyncStarted := true }

/-- The .then continuation of uploadAudio: store the transcription
result, mark the record completed, append it to the session, and when
the io handle is configured emit transcription-completed to the session
room. -/
def transcriptionOnSuccess (t : TranscriptionRec) (session : SessionRec)
    (sessionId resultText : String) (conf : Int) (ioConfigured : Bool) :
    TranscriptionRec × SessionRec × List SocketEvent :=
  let t1 : TranscriptionRec :=
    { t with transcriptionText := resultText, confidence := conf,
             status := "completed" }
  let s1 := sessionSave { session with transcriptions := session.transcriptions ++ [t.transcriptionId] }
  (t1, s1,
   if ioConfigured then
     [{ room := sessionId, event := "transcription-completed",
        payloadId := t.transcriptionId }]
   else [])

/-- The .catch continuation of uploadAudio: mark the record failed,
save it, and when the io handle is configured emit transcription-failed
with the error message to the session room. -/
def transcriptionOnFailure (t : TranscriptionRec)
    (sessionId errMsg : String) (ioConfigured : Bool) :
    TranscriptionRec × List SocketEvent :=
  ({ t with status := "failed" },
   if ioConfigured then
     [{ room := sessionId, event := "transcription-failed",
        payloadId := t.transcriptionId, payloadError := some errMsg }]
   else [])

/-- The live-transcription emission of startStreamTranscription: after
a live chunk transcribes with nonempty text and io is configured, the
result is emitted to the session room. -/
def liveTranscriptionEvent (sessionId recordingId : String) : SocketEvent :=
  { room := sessionId, event := "live-transcription", payloadId := recordingId }

/-- The relay registered in the Socket.IO connection handler
(src/unnamed/part_002, second io.on connection block): a client
transcription-update message is re-broadcast by the server to the room
named by data.sessionId. -/
def relayTranscriptionUpdate (sessionId : String) : SocketEvent :=
  { room := sessionId, event := "transcription-update" }

/-- Result of the updateTranscription endpoint. -/
structure UpdateTranscriptionResult where
  response : HttpResponse
  storedTranscription : Option TranscriptionRec
deriving DecidableEq

/-- The speaker enum of the Transcription schema. -/
def speakerEnum : List String := ["doctor", "patient", "unknown"]

/-- The status enum of the Transcription schema. -/
def transcriptionStatusEnum : List String :=
  ["processing", "completed", "failed"]

/-- Document validation run by transcription.save(): speaker and
status must lie in their enums and confidence within its declared
0 to 100 bounds. -/
def transcriptionValid (t : TranscriptionRec) : Bool :=
  speakerEnum.contains t.speaker &&
  transcriptionStatusEnum.contains t.status &&
  decide (0 ≤ t.confidence) && decide (t.confidence ≤ 100)

/-- transcriptionController.updateTranscription: when a truthy
transcriptionText different from the stored text is supplied, push an
editHistory entry, replace the text and set isEdited; when a truthy
speaker is supplied, set it; then save. A schema violation in the
modified document (an out-of-enum speaker) makes save() throw, the
controller catch answers 500 and nothing is persisted. -/
def updateTranscriptionController (t : Option TranscriptionRec)
    (transcriptionText speaker editedBy : Option String) (now : Int) :
    UpdateTranscriptionResult :=
  match t with
  | none =>
      { response := { status := 404, error := some "Transcription not found",
                      message := some "The specified transcription does not exist" },
        storedTranscription := none }
  | some tr =>
      let tr1 : TranscriptionRec :=
        if jsTruthyStr transcriptionText && (transcriptionText != some tr.transcriptionText) then
          { tr with
            editHistory := tr.editHistory ++
              [{ originalText := tr.transcriptionText,
                 editedText := transcriptionText.getD "",
                 editedAt := now,
                 editedBy := jsOrDefault editedBy "unknown" }],
            transcriptionText := transcriptionText.getD "",
            isEdited := true }
        else tr
      let tr2 := if jsTruthyStr speaker then { tr1 with speaker := speaker.getD "" } else tr1
      if transcriptionValid tr2 then
        { response := { status := 200, message := some "Transcription updated successfully" },
          storedTranscription := some tr2 }
      else
        { response := { status := 500, error := some "Internal server error",
                        message := some "Failed to update transcription" },
          storedTranscription := some tr }

/-! ## Upload route pipeline (src/unnamed/part_006) -/

/-- The router error middleware, restricted to the branch relevant to
rejected uploads: the fileFilter error message maps to a 400 response;
any other error falls through to the app-level 500 handler. -/
def multerErrorResponse (msg : String) : HttpResponse :=
  if msg = "Invalid file type. Only audio files are allowed." then
    { status := 400, error := some "Invalid file type",
      message := some "Only audio files (WAV, MP3, MP4, M4A, WebM, OGG) are allowed" }
  else
    { status := 500, error := some "Internal Server Error" }

/-- The POST /transcribe/upload pipeline: multer runs fileFilter on the
incoming file; on rejection the router error middleware answers and
the controller never runs, otherwise uploadAudio handles the request. -/
def uploadRoute (audioFile : Option AudioFile) (sessionIdB : Option String)
    (session : Option SessionRec) (freshTranscriptionId : String) :
    UploadAudioResult :=
  match audioFile with
  | some file =>
      match fileFilter file.mimetype with
      | Except.error msg =>
          { response := multerErrorResponse msg,
            createdTranscription := none, asyncStarted := false }
      | Except.ok _ =>
          uploadAudioController (some file) sessionIdB session freshTranscriptionId
  | none => uploadAudioController none sessionIdB session freshTranscriptionId

/-! ## summaryController (src/backend/controllers/summaryController.js) -/

/-- A session as generateSummary sees it after
findById(...).populate(transcriptions).populate(summary): the base
document plus the populated transcription documents and the populated
summary document. -/
structure PopulatedSession where
  base : SessionRec
  transcriptionDocs : List TranscriptionRec
  summaryDoc : Option SummaryRec
deriving DecidableEq

/-- Result of the request phase of generateSummary: the immediate HTTP
response, the Summary record newly created and saved (none when no
creation happened), the existing summary as re-saved on the regenerate
path, the session summary reference after the request phase, and
whether the asynchronous generation work was started. -/
structure GenerateSummaryResult where
  response : HttpResponse
  createdSummary : Option SummaryRec
  savedExisting : Option SummaryRec
  sessionSummaryLink : Option String
  asyncStarted : Bool
deriving DecidableEq

/-- Request phase of summaryController.generateSummary: 404 when the
session is missing, 400 when it has no populated transcriptions, 400
with the existing summaryId when a summary exists and regenerate is
absent or false. Otherwise the code awaits a save before answering:
on the regenerate path the existing summary is saved with status
generating, on the create path a fresh Summary holding only session
and status is saved. Either save goes through Mongoose validation; a
rejection is caught by the controller catch, which answers 500 and
persists and links nothing. On the create path the fresh document
lacks the required content sections, so that save always rejects. A
successful save is followed by the asynchronous generation kick-off
and a 202 answer with body status generating. -/
def generateSummaryController (session : Option PopulatedSession)
    (regenerate : Option Bool) (freshSummaryId : String) :
    GenerateSummaryResult :=
  let regen := regenerate.getD false
  match session with
  | none =>
      { response := { status := 404, error := some "Session not found",
                      message := some "The specified session does not exist" },
        createdSummary := none, savedExisting := none,
        sessionSummaryLink := none, asyncStarted := false }
  | some s =>
      if s.transcriptionDocs.isEmpty then
        { response := { status := 400, error := some "No transcriptions found",
                        message := some "Cannot generate summary without transcriptions" },
          createdSummary := none, savedExisting := none,
          sessionSummaryLink := s.base.summary, asyncStarted := false }
      else
        match s.summaryDoc with
        | some existing =>
            if ¬ regen then
              { response := { status := 400, error := some "Summary already exists",
                              message := some "Summary already exists for this session. Use regenerate=true to create a new version",
                              summaryId := some existing.summaryId },
                createdSummary := none, savedExisting := none,
                sessionSummaryLink := s.base.summary, asyncStarted := false }
            else
              match summarySave { existing with status := "generating" } with
              | Except.ok upd =>
                  { response := { status := 202,
                                  message := some "Summary generation started",
                                  summaryId := some existing.summaryId,
                                  bodyStatus := some "generating" },
                    createdSummary := none, savedExisting := some upd,
                    sessionSummaryLink := s.base.summary, asyncStarted := true }
              | Except.error _ =>
                  { response := { status := 500, error := some "Internal server error",
                                  message := some "Failed to start summary generation" },
                    createdSummary := none, savedExisting := none,
                    sessionSummaryLink := s.base.summary, asyncStarted := false }
        | none =>
            let fresh : SummaryRec :=
              { summaryId := freshSummaryId, sessionRef := s.base.sessionId,
                status := "generating" }
            match summarySave fresh with
            | Except.ok saved =>
                { response := { status := 202,
                                message := some "Summary generation started",
                                summaryId := some freshSummaryId,
                                bodyStatus := some "generating" },
                  createdSummary := some saved, savedExisting := none,
                  sessionSummaryLink := some freshSummaryId, asyncStarted := true }
            | Except.error _ =>
                { response := { status := 500, error := some "Internal server error",
                                message := some "Failed to start summary generation" },
                  createdSummary := none, savedExisting := none,
                  sessionSummaryLink := s.base.summary, asyncStarted := false }

/-- The success continuation of generateSummary on the non-regenerate
path: store the generated content, mark the summary completed, and when
io is configured emit summary-completed to the session room. -/
def summaryOnSuccess (summary : SummaryRec) (sessionId : String)
    (ioConfigured : Bool) : SummaryRec × List SocketEvent :=
  ({ summary with status := "completed" },
   if ioConfigured then
     [{ room := sessionId, event := "summary-completed",
        payloadId := summary.summaryId }]
   else [])

/-- The .catch continuation of generateSummary: mark the summary
failed, save it, and when io is configured emit summary-failed with the
error message to the session room. -/
def summaryOnFailure (summary : SummaryRec) (sessionId errMsg : String)
    (ioConfigured : Bool) : SummaryRec × List SocketEvent :=
  ({ summary with status := "failed" },
   if ioConfigured then
     [{ room := sessionId, event := "summary-failed",
        payloadId := summary.summaryId, payloadError := some errMsg }]
   else [])

/-! ## Session-room event registry -/

/-- Every event name the server emits to a session-identified room, one
per emit site in the source: transcription-completed and
transcription-failed in uploadAudio, live-transcription in
startStreamTranscription, summary-completed and summary-failed in
generateSummary, and transcription-update in the connection-handler
relay of the server file. -/
def sessionRoomEventNames : List String :=
  ["transcription-completed", "transcription-failed", "live-transcription",
   "summary-completed", "summary-failed", "transcription-update"]

/-- The event types the specification lists for session rooms:
transcription completed/failed, the live partial transcript, and
summary completed/failed. Modelled from the spec wording, for
comparison with the registry taken from the source. -/
def specClaimedRoomEventNames : List String :=
  ["transcription-completed", "transcription-failed", "live-transcription",
   "summary-completed", "summary-failed"]

/-! ## Sample documents used by witnesses -/

/-- A sample active session. -/
def sampleSession : SessionRec :=
  { sessionId := "sess_1", doctorName := "Dr. A", startTime := some 0 }

/-- A sample completed transcription attached to the sample session. -/
def sampleTranscription : TranscriptionRec :=
  { transcriptionId := "tr_1", sessionRef := "sess_1",
    transcriptionText := "hello", status := "completed" }

/-- A sample completed summary attached to the sample session. -/
def sampleSummary : SummaryRec :=
  { summaryId := "sum_1", sessionRef := "sess_1", status := "completed" }

/-- A populated session with one completed transcription and no
summary. -/
def samplePopulatedNoSummary : PopulatedSession :=
  { base := sampleSession, transcriptionDocs := [sampleTranscription],
    summaryDoc := none }

/-- A populated session with a linked summary whose transcriptions were
all deleted after the summary was generated. -/
def samplePopulatedNoTrans : PopulatedSession :=
  { base := { sampleSession with summary := some "sum_1" },
    transcriptionDocs := [], summaryDoc := some sampleSummary }

/-- A populated session with one completed transcription and a linked
summary. -/
def samplePopulatedWithSummary : PopulatedSession :=
  { base := { sampleSession with summary := some "sum_1" },
    transcriptionDocs := [sampleTranscription], summaryDoc := some sampleSummary }

/-- A schema-valid completed summary whose required content sections
are present. -/
def sampleSummaryFull : SummaryRec :=
  { summaryId := "sum_3", sessionRef := "sess_1", status := "completed",
    chiefComplaint := some "cough", assessment := some "viral infection",
    plan := some "rest and fluids" }

/-- A populated session whose linked summary is schema-valid. -/
def samplePopulatedValidSummary : PopulatedSession :=
  { base := { sampleSession with summary := some "sum_3" },
    transcriptionDocs := [sampleTranscription], summaryDoc := some sampleSummaryFull }

/-! ## Helper lemmas -/

/-- Saving a session never changes any field other than duration. -/
theorem sessionSave_fields (t : SessionRec) :
    (sessionSave t).status = t.status ∧ (sessionSave t).endTime = t.endTime ∧
    (sessionSave t).startTime = t.startTime ∧ (sessionSave t).notes = t.notes := by
  unfold sessionSave sessionPreSave
  rcases h1 : t.startTime with _ | st <;> rcases h2 : t.endTime with _ | et <;>
    simp [h1, h2]

/-- Saving a session with both instants set recomputes the duration by
the rounded minute difference. -/
theorem sessionSave_duration (t : SessionRec) (a b : Int)
    (ha : t.startTime = some a) (hb : t.endTime = some b) :
    (sessionSave t).duration = durationMinutes a b := by
  unfold sessionSave sessionPreSave
  rw [ha, hb]

/-- Every socket event the embedded emit sites can produce carries a
name from the session-room registry. -/
theorem allEmits_in_registry (t : TranscriptionRec) (sum : SummaryRec)
    (sess : SessionRec) (sid txt err rid : String) (c : Int) (io : Bool) :
    ((transcriptionOnSuccess t sess sid txt c io).2.2 ++
     (transcriptionOnFailure t sid err io).2 ++
     (summaryOnSuccess sum sid io).2 ++ (summaryOnFailure sum sid err io).2 ++
     [liveTranscriptionEvent sid rid, relayTranscriptionUpdate sid]).all
      (fun e => sessionRoomEventNames.contains e.event) = true := by
  cases io <;>
    simp [transcriptionOnSuccess, transcriptionOnFailure, summaryOnSuccess,
          summaryOnFailure, liveTranscriptionEvent, relayTranscriptionUpdate,
          sessionRoomEventNames]

/-! ## Claim theorems -/

/-- Lookup misses of the language map, for inputs outside the eight
supported codes. -/
theorem languageMap_lookup_none (s : String)
    (hs : s ∉ (["en", "hi", "bn", "te", "mr", "ta", "gu", "kn"] : List String)) :
    languageMap.lookup s = none := by
  simp only [List.mem_cons, List.not_mem_nil, or_false, not_or] at hs
  obtain ⟨h1, h2, h3, h4, h5, h6, h7, h8⟩ := hs
  simp [languageMap, List.lookup,
        beq_eq_false_iff_ne.mpr h1, beq_eq_false_iff_ne.mpr h2,
        beq_eq_false_iff_ne.mpr h3, beq_eq_false_iff_ne.mpr h4,
        beq_eq_false_iff_ne.mpr h5, beq_eq_false_iff_ne.mpr h6,
        beq_eq_false_iff_ne.mpr h7, beq_eq_false_iff_ne.mpr h8]

/-- C7 counterexample: the property read languageMap with key toString
hits the inherited Object.prototype function, a truthy value, so the
source returns it and never reaches the en-US fallback. -/
theorem getLanguageCode_proto_counterexample :
    ("toString" : String) ∉ (["en", "hi", "bn", "te", "mr", "ta", "gu", "kn"] : List String) ∧
    getLanguageCode "toString" = JsValue.inherited "toString" ∧
    getLanguageCode "toString" ≠ JsValue.str "en-US" := by
  decide

/-- C7 amended: getLanguageCode returns the fixed regional locale on
each of the eight supported codes, the en-US fallback on every other
string that is not an inherited Object.prototype property name, and
the inherited truthy property value on those names. -/
theorem getLanguageCode_lookup_amended :
    getLanguageCode "en" = JsValue.str "en-US" ∧
    getLanguageCode "hi" = JsValue.str "hi-IN" ∧
    getLanguageCode "bn" = JsValue.str "bn-IN" ∧
    getLanguageCode "te" = JsValue.str "te-IN" ∧
    getLanguageCode "mr" = JsValue.str "mr-IN" ∧
    getLanguageCode "ta" = JsValue.str "ta-IN" ∧
    getLanguageCode "gu" = JsValue.str "gu-IN" ∧
    getLanguageCode "kn" = JsValue.str "kn-IN" ∧
    (∀ s : String,
      s ∉ (["en", "hi", "bn", "te", "mr", "ta", "gu", "kn"] : List String) →
      s ∉ objectProtoKeys → getLanguageCode s = JsValue.str "en-US") ∧
    (∀ s : String,
      s ∉ (["en", "hi", "bn", "te", "mr", "ta", "gu", "kn"] : List String) →
      s ∈ objectProtoKeys → getLanguageCode s = JsValue.inherited s) := by
  refine ⟨rfl, rfl, rfl, rfl, rfl, rfl, rfl, rfl, ?_, ?_⟩
  · intro s hs hp
    simp [getLanguageCode, jsObjectGet, languageMap_lookup_none s hs, hp, jsTruthyVal]
  · intro s hs hp
    simp [getLanguageCode, jsObjectGet, languageMap_lookup_none s hs, hp, jsTruthyVal]

/-- Witness for the amended C7 at the plain miss fr and the inherited
name valueOf. -/
theorem getLanguageCode_lookup_amended_witness :
    (("fr" : String) ∉ (["en", "hi", "bn", "te", "mr", "ta", "gu", "kn"] : List String) ∧
     ("fr" : String) ∉ objectProtoKeys ∧
     getLanguageCode "fr" = JsValue.str "en-US") ∧
    (("valueOf" : String) ∉ (["en", "hi", "bn", "te", "mr", "ta", "gu", "kn"] : List String) ∧
     ("valueOf" : String) ∈ objectProtoKeys ∧
     getLanguageCode "valueOf" = JsValue.inherited "valueOf") :=
  ⟨⟨by decide, by decide,
    getLanguageCode_lookup_amended.2.2.2.2.2.2.2.2.1 "fr" (by decide) (by decide)⟩,
   ⟨by decide, by decide,
    getLanguageCode_lookup_amended.2.2.2.2.2.2.2.2.2 "valueOf" (by decide) (by decide)⟩⟩

/-- C6: an uploaded file whose MIME type is outside the audio allowlist
is rejected by the upload route with HTTP 400 and no Transcription
record is created. -/
theorem uploadRoute_rejects_nonaudio (file : AudioFile)
    (sessionIdB : Option String) (session : Option SessionRec)
    (freshTranscriptionId : String) (h : file.mimetype ∉ allowedMimes) :
    (uploadRoute (some file) sessionIdB session freshTranscriptionId).response.status = 400 ∧
    (uploadRoute (some file) sessionIdB session freshTranscriptionId).createdTranscription = none := by
  simp only [uploadRoute, fileFilter]
  rw [if_neg h]
  exact ⟨rfl, rfl⟩

/-- Witness for C6 at a text file. -/
theorem uploadRoute_rejects_nonaudio_witness :
    ({ mimetype := "text/plain" } : AudioFile).mimetype ∉ allowedMimes ∧
    ((uploadRoute (some { mimetype := "text/plain" }) (some "sess_1") (some sampleSession) "tr_9").response.status = 400 ∧
     (uploadRoute (some { mimetype := "text/plain" }) (some "sess_1") (some sampleSession) "tr_9").createdTranscription = none) :=
  ⟨by decide,
   uploadRoute_rejects_nonaudio { mimetype := "text/plain" } (some "sess_1")
     (some sampleSession) "tr_9" (by decide)⟩

/-- C5: calling endSession on a session whose status is completed
returns HTTP 400 and stores the session unmodified. -/
theorem endSession_completed_rejected (s : SessionRec) (notes : Option String)
    (now : Int) (h : s.status = "completed") :
    (endSessionController (some s) notes now).response.status = 400 ∧
    (endSessionController (some s) notes now).storedSession = some s := by
  simp only [endSessionController]
  rw [if_pos h]
  exact ⟨rfl, rfl⟩

/-- Witness for C5 at a completed sample session. -/
theorem endSession_completed_rejected_witness :
    ({ sampleSession with status := "completed" } : SessionRec).status = "completed" ∧
    ((endSessionController (some { sampleSession with status := "completed" }) none 0).response.status = 400 ∧
     (endSessionController (some { sampleSession with status := "completed" }) none 0).storedSession =
       some { sampleSession with status := "completed" }) :=
  ⟨rfl, endSession_completed_rejected { sampleSession with status := "completed" } none 0 rfl⟩

/-- C8: a successful endSession call on a session with a set startTime
and a status other than completed leaves the session completed, with
endTime set to now and duration equal to the rounded minute difference
of the two instants; and the pre-save middleware re-establishes the
duration equation on every save where both instants are set. -/
theorem endSession_completes_with_duration (s : SessionRec)
    (notes : Option String) (now st : Int)
    (hst : s.startTime = some st) (hs : s.status ≠ "completed") :
    (∃ s2, (endSessionController (some s) notes now).storedSession = some s2 ∧
      s2.status = "completed" ∧ s2.endTime = some now ∧
      s2.duration = durationMinutes st now) ∧
    ∀ (t : SessionRec) (a b : Int), t.startTime = some a → t.endTime = some b →
      (sessionSave t).duration = durationMinutes a b := by
  refine ⟨?_, fun t a b ha hb => sessionSave_duration t a b ha hb⟩
  simp only [endSessionController]
  rw [if_neg hs]
  refine ⟨_, rfl, ?_⟩
  have hm : endSessionMethod s now =
      sessionSave { s with endTime := some now, status := "completed",
                           duration := durationMinutes st now } := by
    unfold endSessionMethod
    rw [show ({ s with endTime := some now, status := "completed" } : SessionRec).startTime = some st from hst]
  cases hn : jsTruthyStr notes <;>
    simp [hn, hm, sessionSave, sessionPreSave, hst, durationMinutes]

/-- Witness for C8 on the sample session ended at 90000 ms, where the
rounded duration is 2 minutes. -/
theorem endSession_completes_with_duration_witness :
    sampleSession.startTime = some 0 ∧ sampleSession.status ≠ "completed" ∧
    ((∃ s2, (endSessionController (some sampleSession) none 90000).storedSession = some s2 ∧
        s2.status = "completed" ∧ s2.endTime = some 90000 ∧
        s2.duration = durationMinutes 0 90000) ∧
      ∀ (t : SessionRec) (a b : Int), t.startTime = some a → t.endTime = some b →
        (sessionSave t).duration = durationMinutes a b) :=
  ⟨rfl, by decide,
   endSession_completes_with_duration sampleSession none 90000 0 rfl (by decide)⟩

/-- C9 counterexample: a body carrying a status outside the schema
enum makes the real update reject with 500 and store nothing, so the
supplied status value is not taken into the session. -/
theorem updateSession_invalid_counterexample :
    (updateSessionController (some sampleSession) { statusB := some "bogus" }).response.status = 500 ∧
    (updateSessionController (some sampleSession) { statusB := some "bogus" }).storedSession = some sampleSession ∧
    sampleSession.status ≠ "bogus" := by
  decide

/-- C9 amended: updateSession never changes sessionId, startTime, the
transcriptions list or the summary reference, whatever the request
body supplies for them; when the sanitized body passes the update
validators, every other updatable field is taken from the body (after
the declared trim setters) with a 200 answer, and when it fails them
the endpoint answers 500 and the session is unchanged. -/
theorem updateSession_frame_validated (s : SessionRec) (body : SessionUpdateBody) :
    ∃ s2, (updateSessionController (some s) body).storedSession = some s2 ∧
      s2.sessionId = s.sessionId ∧ s2.startTime = s.startTime ∧
      s2.transcriptions = s.transcriptions ∧ s2.summary = s.summary ∧
      (sessionUpdateValid (sanitizeSessionUpdates body) = true →
        ((updateSessionController (some s) body).response.status = 200 ∧
         s2.doctorName = (body.doctorNameB.map strTrim).getD s.doctorName ∧
         s2.doctorId = (body.doctorIdB.map strTrim).getD s.doctorId ∧
         s2.sessionType = body.sessionTypeB.getD s.sessionType ∧
         s2.department = (body.departmentB.map strTrim).getD s.department ∧
         s2.priority = body.priorityB.getD s.priority ∧
         s2.notes = (body.notesB.map strTrim).getD s.notes ∧
         s2.status = body.statusB.getD s.status ∧
         s2.endTime = (match body.endTimeB with | some t => some t | none => s.endTime))) ∧
      (sessionUpdateValid (sanitizeSessionUpdates body) = false →
        ((updateSessionController (some s) body).response.status = 500 ∧ s2 = s)) := by
  cases hv : sessionUpdateValid (sanitizeSessionUpdates body)
  · refine ⟨s, ?_, rfl, rfl, rfl, rfl, ?_, ?_⟩
    · simp [updateSessionController, hv]
    · intro h
      simp at h
    · intro h
      exact ⟨by simp [updateSessionController, hv], rfl⟩
  · refine ⟨applySessionUpdate s (sanitizeSessionUpdates body), ?_, ?_, ?_, ?_, ?_, ?_, ?_⟩
    · simp [updateSessionController, hv]
    · simp [applySessionUpdate, sanitizeSessionUpdates]
    · simp [applySessionUpdate, sanitizeSessionUpdates]
    · simp [applySessionUpdate, sanitizeSessionUpdates]
    · simp [applySessionUpdate, sanitizeSessionUpdates]
    · intro h
      exact ⟨by simp [updateSessionController, hv],
             by simp [applySessionUpdate, sanitizeSessionUpdates]⟩
    · intro h
      simp at h

/-- Witness for the amended C9: a valid body that also tries to
overwrite every protected field of the sample session. -/
theorem updateSession_frame_validated_witness :
    ∃ s2, (updateSessionController (some sampleSession)
        { sessionIdB := some "sess_hack", startTimeB := some 99,
          transcriptionsB := some ["tr_x"], summaryB := some (some "sum_x"),
          doctorNameB := some "Dr. B" }).storedSession = some s2 ∧
      s2.sessionId = sampleSession.sessionId ∧
      s2.startTime = sampleSession.startTime ∧
      s2.transcriptions = sampleSession.transcriptions ∧
      s2.summary = sampleSession.summary ∧
      (sessionUpdateValid (sanitizeSessionUpdates
          { sessionIdB := some "sess_hack", startTimeB := some 99,
            transcriptionsB := some ["tr_x"], summaryB := some (some "sum_x"),
            doctorNameB := some "Dr. B" }) = true →
        ((updateSessionController (some sampleSession)
            { sessionIdB := some "sess_hack", startTimeB := some 99,
              transcriptionsB := some ["tr_x"], summaryB := some (some "sum_x"),
              doctorNameB := some "Dr. B" }).response.status = 200 ∧
         s2.doctorName = ((some "Dr. B").map strTrim).getD sampleSession.doctorName ∧
         s2.doctorId = ((none : Option String).map strTrim).getD sampleSession.doctorId ∧
         s2.sessionType = (none : Option String).getD sampleSession.sessionType ∧
         s2.department = ((none : Option String).map strTrim).getD sampleSession.department ∧
         s2.priority = (none : Option String).getD sampleSession.priority ∧
         s2.notes = ((none : Option String).map strTrim).getD sampleSession.notes ∧
         s2.status = (none : Option String).getD sampleSession.status ∧
         s2.endTime = (match (none : Option Int) with | some t => some t | none => sampleSession.endTime))) ∧
      (sessionUpdateValid (sanitizeSessionUpdates
          { sessionIdB := some "sess_hack", startTimeB := some 99,
            transcriptionsB := some ["tr_x"], summaryB := some (some "sum_x"),
            doctorNameB := some "Dr. B" }) = false →
        ((updateSessionController (some sampleSession)
            { sessionIdB := some "sess_hack", startTimeB := some 99,
              transcriptionsB := some ["tr_x"], summaryB := some (some "sum_x"),
              doctorNameB := some "Dr. B" }).response.status = 500 ∧ s2 = sampleSession)) :=
  updateSession_frame_validated sampleSession
    { sessionIdB := some "sess_hack", startTimeB := some 99,
      transcriptionsB := some ["tr_x"], summaryB := some (some "sum_x"),
      doctorNameB := some "Dr. B" }

/-- C3: when the asynchronous external-API call rejects, the catch
continuation of each controller marks the record failed and saves it,
and broadcasts the matching failure event with the error message to the
session room. The io handle is configured unconditionally by the server
file, so it is passed as true here. -/
theorem asyncFailure_marks_failed_and_emits (t : TranscriptionRec)
    (sum : SummaryRec) (sid errMsg : String) :
    ((transcriptionOnFailure t sid errMsg true).1.status = "failed" ∧
     (transcriptionOnFailure t sid errMsg true).2 =
       [{ room := sid, event := "transcription-failed",
          payloadId := t.transcriptionId, payloadError := some errMsg }]) ∧
    ((summaryOnFailure sum sid errMsg true).1.status = "failed" ∧
     (summaryOnFailure sum sid errMsg true).2 =
       [{ room := sid, event := "summary-failed",
          payloadId := sum.summaryId, payloadError := some errMsg }]) := by
  simp [transcriptionOnFailure, summaryOnFailure]

/-- C10 counterexample: a request carrying a qualifying new text
together with a speaker outside the schema enum makes save() throw, so
the endpoint answers 500 and persists nothing: no editHistory entry is
appended although a nonempty different transcriptionText was
supplied. -/
theorem updateTranscription_invalid_speaker_counterexample :
    ("goodbye" : String) ≠ "" ∧
    ("goodbye" : String) ≠ sampleTranscription.transcriptionText ∧
    (updateTranscriptionController (some sampleTranscription) (some "goodbye") (some "alien") none 5).response.status = 500 ∧
    (updateTranscriptionController (some sampleTranscription) (some "goodbye") (some "alien") none 5).storedTranscription = some sampleTranscription ∧
    sampleTranscription.isEdited = false ∧
    sampleTranscription.editHistory = [] := by
  decide

/-- C10 amended: for a schema-valid stored transcription and a request
whose speaker, when truthy, lies in the schema enum, the persisted
document gains an editHistory entry recording the previous and the new
text and has isEdited set exactly when a nonempty transcriptionText
different from the stored text is supplied; when the field is absent
or equal to the stored text, the text and the edit history are
unchanged. A truthy out-of-enum speaker instead makes the save throw,
answering 500 with nothing persisted. -/
theorem updateTranscription_edit_iff_validated (tr : TranscriptionRec)
    (transcriptionText speaker editedBy : Option String) (now : Int)
    (hvalid : transcriptionValid tr = true)
    (hsp : jsTruthyStr speaker = true → speakerEnum.contains (speaker.getD "") = true) :
    ∃ t2, (updateTranscriptionController (some tr) transcriptionText speaker editedBy now).storedTranscription = some t2 ∧
      ((t2.editHistory = tr.editHistory ++
          [{ originalText := tr.transcriptionText,
             editedText := transcriptionText.getD "",
             editedAt := now, editedBy := jsOrDefault editedBy "unknown" }] ∧
        t2.isEdited = true ∧ t2.transcriptionText = transcriptionText.getD "") ↔
        (∃ txt, transcriptionText = some txt ∧ txt ≠ "" ∧ txt ≠ tr.transcriptionText)) ∧
      ((transcriptionText = none ∨ transcriptionText = some tr.transcriptionText) →
        t2.transcriptionText = tr.transcriptionText ∧ t2.editHistory = tr.editHistory) := by
  have hc := hvalid
  simp only [transcriptionValid, Bool.and_eq_true, decide_eq_true_eq] at hc
  obtain ⟨⟨⟨hspk, hst⟩, hc0⟩, hc100⟩ := hc
  have hspkP : tr.speaker ∈ speakerEnum := by simpa using hspk
  have hstP : tr.status ∈ transcriptionStatusEnum := by simpa using hst
  have hnone : jsTruthyStr (none : Option String) = false := rfl
  rcases transcriptionText with _ | txt
  · cases hsp2 : jsTruthyStr speaker
    · refine ⟨tr, ?_, ?_, ?_⟩
      · simp [updateTranscriptionController, hnone, hsp2, hvalid]
      · simp
      · simp
    · have hgP : speaker.getD "" ∈ speakerEnum := by simpa using hsp hsp2
      refine ⟨{ tr with speaker := speaker.getD "" }, ?_, ?_, ?_⟩
      · simp [updateTranscriptionController, hnone, hsp2, transcriptionValid,
              Bool.and_eq_true, hstP, hc0, hc100, hgP]
      · simp
      · simp
  · have hsome : jsTruthyStr (some txt) = (txt != "") := rfl
    by_cases h1 : txt = ""
    · subst h1
      cases hsp2 : jsTruthyStr speaker
      · refine ⟨tr, ?_, ?_, ?_⟩
        · simp [updateTranscriptionController, hsome, hsp2, hvalid]
        · simp
        · simp
      · have hgP : speaker.getD "" ∈ speakerEnum := by simpa using hsp hsp2
        refine ⟨{ tr with speaker := speaker.getD "" }, ?_, ?_, ?_⟩
        · simp [updateTranscriptionController, hsome, hsp2, transcriptionValid,
                Bool.and_eq_true, hstP, hc0, hc100, hgP]
        · simp
        · simp
    · by_cases h2 : txt = tr.transcriptionText
      · cases hsp2 : jsTruthyStr speaker
        · refine ⟨tr, ?_, ?_, ?_⟩
          · simp [updateTranscriptionController, hsome, hsp2, hvalid, h2]
          · simp_all
          · simp
        · have hgP : speaker.getD "" ∈ speakerEnum := by simpa using hsp hsp2
          refine ⟨{ tr with speaker := speaker.getD "" }, ?_, ?_, ?_⟩
          · simp [updateTranscriptionController, hsome, hsp2, transcriptionValid,
                  Bool.and_eq_true, hstP, hc0, hc100, hgP, h2]
          · simp_all
          · simp
      · cases hsp2 : jsTruthyStr speaker
        · refine ⟨{ tr with
              editHistory := tr.editHistory ++
                [{ originalText := tr.transcriptionText, editedText := txt,
                   editedAt := now, editedBy := jsOrDefault editedBy "unknown" }],
              transcriptionText := txt, isEdited := true }, ?_, ?_, ?_⟩
          · simp [updateTranscriptionController, hsome, hsp2, transcriptionValid,
                  Bool.and_eq_true, hspkP, hstP, hc0, hc100, h1, h2]
          · simp [h1, h2]
          · simp [h2]
        · have hgP : speaker.getD "" ∈ speakerEnum := by simpa using hsp hsp2
          refine ⟨{ tr with
              editHistory := tr.editHistory ++
                [{ originalText := tr.transcriptionText, editedText := txt,
                   editedAt := now, editedBy := jsOrDefault editedBy "unknown" }],
              transcriptionText := txt, isEdited := true,
              speaker := speaker.getD "" }, ?_, ?_, ?_⟩
          · simp [updateTranscriptionController, hsome, hsp2, transcriptionValid,
                  Bool.and_eq_true, hstP, hc0, hc100, hgP, h1, h2]
          · simp [h1, h2]
          · simp [h2]

/-- Witness for the amended C10: editing the schema-valid sample
transcription with a new nonempty text and no speaker. -/
theorem updateTranscription_edit_iff_validated_witness :
    transcriptionValid sampleTranscription = true ∧
    (jsTruthyStr none = true → speakerEnum.contains ((none : Option String).getD "") = true) ∧
    ∃ t2, (updateTranscriptionController (some sampleTranscription)
        (some "goodbye") none none 5).storedTranscription = some t2 ∧
      ((t2.editHistory = sampleTranscription.editHistory ++
          [{ originalText := sampleTranscription.transcriptionText,
             editedText := (some "goodbye").getD "",
             editedAt := 5, editedBy := jsOrDefault none "unknown" }] ∧
        t2.isEdited = true ∧ t2.transcriptionText = (some "goodbye").getD "") ↔
        (∃ txt, (some "goodbye" : Option String) = some txt ∧ txt ≠ "" ∧
          txt ≠ sampleTranscription.transcriptionText)) ∧
      (((some "goodbye" : Option String) = none ∨
        (some "goodbye" : Option String) = some sampleTranscription.transcriptionText) →
        t2.transcriptionText = sampleTranscription.transcriptionText ∧
        t2.editHistory = sampleTranscription.editHistory) :=
  ⟨by decide, by decide,
   updateTranscription_edit_iff_validated sampleTranscription (some "goodbye")
     none none 5 (by decide) (by decide)⟩

/-- C1 counterexample: a session with a linked summary but no
transcriptions (reachable, since deleteTranscription removes
transcriptions from a session after a summary exists) hits the
no-transcriptions check first, so generateSummary with regenerate
absent answers 400 without the existing summaryId in the body. -/
theorem generateSummary_linked_counterexample :
    samplePopulatedNoTrans.summaryDoc = some sampleSummary ∧
    sampleSummary.summaryId = "sum_1" ∧
    (generateSummaryController (some samplePopulatedNoTrans) none "sum_2").response.status = 400 ∧
    (generateSummaryController (some samplePopulatedNoTrans) none "sum_2").response.summaryId = none := by
  decide

/-- C1 amended: for a session with at least one populated transcription
and a linked summary, generateSummary with regenerate absent or false
answers 400 carrying the existing summaryId, creates and saves no
Summary record, and leaves the session summary link unchanged. -/
theorem generateSummary_existing_returns_400 (ps : PopulatedSession)
    (existing : SummaryRec) (regenerate : Option Bool) (freshSummaryId : String)
    (htr : ps.transcriptionDocs ≠ [])
    (hsum : ps.summaryDoc = some existing)
    (hregen : regenerate.getD false = false) :
    (generateSummaryController (some ps) regenerate freshSummaryId).response.status = 400 ∧
    (generateSummaryController (some ps) regenerate freshSummaryId).response.summaryId = some existing.summaryId ∧
    (generateSummaryController (some ps) regenerate freshSummaryId).createdSummary = none ∧
    (generateSummaryController (some ps) regenerate freshSummaryId).savedExisting = none ∧
    (generateSummaryController (some ps) regenerate freshSummaryId).sessionSummaryLink = ps.base.summary ∧
    (generateSummaryController (some ps) regenerate freshSummaryId).asyncStarted = false := by
  have hempty : ps.transcriptionDocs.isEmpty = false := by
    cases h : ps.transcriptionDocs with
    | nil => exact absurd h htr
    | cons a l => simp [h]
  simp [generateSummaryController, hempty, hsum, hregen]

/-- Witness for the amended C1 on the sample session with a linked
summary and one transcription. -/
theorem generateSummary_existing_returns_400_witness :
    samplePopulatedWithSummary.transcriptionDocs ≠ [] ∧
    samplePopulatedWithSummary.summaryDoc = some sampleSummary ∧
    (none : Option Bool).getD false = false ∧
    ((generateSummaryController (some samplePopulatedWithSummary) none "sum_2").response.status = 400 ∧
     (generateSummaryController (some samplePopulatedWithSummary) none "sum_2").response.summaryId = some sampleSummary.summaryId ∧
     (generateSummaryController (some samplePopulatedWithSummary) none "sum_2").createdSummary = none ∧
     (generateSummaryController (some samplePopulatedWithSummary) none "sum_2").savedExisting = none ∧
     (generateSummaryController (some samplePopulatedWithSummary) none "sum_2").sessionSummaryLink = samplePopulatedWithSummary.base.summary ∧
     (generateSummaryController (some samplePopulatedWithSummary) none "sum_2").asyncStarted = false) :=
  ⟨by decide, rfl, rfl,
   generateSummary_existing_returns_400 samplePopulatedWithSummary sampleSummary
     none "sum_2" (by decide) rfl rfl⟩

/-- C2 counterexample: a summary-generation request on a session with
transcriptions and no summary passes every precondition check, but the
fresh Summary lacks its required content sections, its save rejects
and the endpoint answers 500 with no body status, no created record
and no asynchronous work. -/
theorem generateSummary_create_500_counterexample :
    samplePopulatedNoSummary.transcriptionDocs ≠ [] ∧
    samplePopulatedNoSummary.summaryDoc = none ∧
    (generateSummaryController (some samplePopulatedNoSummary) none "sum_1").response.status = 500 ∧
    (generateSummaryController (some samplePopulatedNoSummary) none "sum_1").response.bodyStatus ≠ some "processing" ∧
    (generateSummaryController (some samplePopulatedNoSummary) none "sum_1").createdSummary = none ∧
    (generateSummaryController (some samplePopulatedNoSummary) none "sum_1").asyncStarted = false := by
  decide

/-- C2 amended: the request phase of a valid audio upload answers 202
with body status processing and starts the work as a detached
continuation. For summary generation the only path that starts the
asynchronous work is the regenerate path over a schema-valid existing
summary, answering 202 with body status generating; the create path on
a session without a summary always fails its initial save against the
required content sections of the Summary schema and answers 500 with
nothing created or started. -/
theorem asyncRequest_phase (file : AudioFile) (sid : String)
    (sess : SessionRec) (freshTrId : String) (hsid : sid ≠ "")
    (ps : PopulatedSession) (existing : SummaryRec) (regenerate : Option Bool)
    (freshSumId : String) (htr : ps.transcriptionDocs ≠ [])
    (hsum : ps.summaryDoc = some existing)
    (hregen : regenerate.getD false = true)
    (hval : summaryValid { existing with status := "generating" } = true)
    (ps2 : PopulatedSession) (regenerate2 : Option Bool) (freshSumId2 : String)
    (htr2 : ps2.transcriptionDocs ≠ []) (hnone : ps2.summaryDoc = none) :
    ((uploadAudioController (some file) (some sid) (some sess) freshTrId).response.status = 202 ∧
     (uploadAudioController (some file) (some sid) (some sess) freshTrId).response.bodyStatus = some "processing" ∧
     (uploadAudioController (some file) (some sid) (some sess) freshTrId).asyncStarted = true) ∧
    ((generateSummaryController (some ps) regenerate freshSumId).response.status = 202 ∧
     (generateSummaryController (some ps) regenerate freshSumId).response.bodyStatus = some "generating" ∧
     (generateSummaryController (some ps) regenerate freshSumId).asyncStarted = true) ∧
    ((generateSummaryController (some ps2) regenerate2 freshSumId2).response.status = 500 ∧
     (generateSummaryController (some ps2) regenerate2 freshSumId2).createdSummary = none ∧
     (generateSummaryController (some ps2) regenerate2 freshSumId2).sessionSummaryLink = ps2.base.summary ∧
     (generateSummaryController (some ps2) regenerate2 freshSumId2).asyncStarted = false) := by
  have hempty : ps.transcriptionDocs.isEmpty = false := by
    cases h : ps.transcriptionDocs with
    | nil => exact absurd h htr
    | cons a l => simp [h]
  have hempty2 : ps2.transcriptionDocs.isEmpty = false := by
    cases h : ps2.transcriptionDocs with
    | nil => exact absurd h htr2
    | cons a l => simp [h]
  refine ⟨?_, ?_, ?_⟩
  · simp [uploadAudioController, jsTruthyStr, hsid]
  · simp [generateSummaryController, hempty, hsum, hregen, summarySave, hval]
  · have hfresh : summaryValid
        ({ summaryId := freshSumId2, sessionRef := ps2.base.sessionId,
           status := "generating" } : SummaryRec) = false := rfl
    simp [generateSummaryController, hempty2, hnone, summarySave, hfresh]

/-- Witness for the amended C2 on a valid wav upload, a regeneration
over the schema-valid sample summary, and a create attempt on the
sample session without a summary. -/
theorem asyncRequest_phase_witness :
    ("sess_1" : String) ≠ "" ∧
    samplePopulatedValidSummary.transcriptionDocs ≠ [] ∧
    samplePopulatedValidSummary.summaryDoc = some sampleSummaryFull ∧
    (some true : Option Bool).getD false = true ∧
    summaryValid { sampleSummaryFull with status := "generating" } = true ∧
    samplePopulatedNoSummary.transcriptionDocs ≠ [] ∧
    samplePopulatedNoSummary.summaryDoc = none ∧
    (((uploadAudioController (some { mimetype := "audio/wav" }) (some "sess_1") (some sampleSession) "tr_9").response.status = 202 ∧
      (uploadAudioController (some { mimetype := "audio/wav" }) (some "sess_1") (some sampleSession) "tr_9").response.bodyStatus = some "processing" ∧
      (uploadAudioController (some { mimetype := "audio/wav" }) (some "sess_1") (some sampleSession) "tr_9").asyncStarted = true) ∧
     ((generateSummaryController (some samplePopulatedValidSummary) (some true) "sum_9").response.status = 202 ∧
      (generateSummaryController (some samplePopulatedValidSummary) (some true) "sum_9").response.bodyStatus = some "generating" ∧
      (generateSummaryController (some samplePopulatedValidSummary) (some true) "sum_9").asyncStarted = true) ∧
     ((generateSummaryController (some samplePopulatedNoSummary) none "sum_1").response.status = 500 ∧
      (generateSummaryController (some samplePopulatedNoSummary) none "sum_1").createdSummary = none ∧
      (generateSummaryController (some samplePopulatedNoSummary) none "sum_1").sessionSummaryLink = samplePopulatedNoSummary.base.summary ∧
      (generateSummaryController (some samplePopulatedNoSummary) none "sum_1").asyncStarted = false)) :=
  ⟨by decide, by decide, rfl, rfl, by decide, by decide, rfl,
   asyncRequest_phase { mimetype := "audio/wav" } "sess_1" sampleSession "tr_9"
     (by decide) samplePopulatedValidSummary sampleSummaryFull (some true) "sum_9"
     (by decide) rfl rfl (by decide) samplePopulatedNoSummary none "sum_1"
     (by decide) rfl⟩

/-- C4 counterexample: the connection-handler relay pushes a
transcription-update event to a session room, an event type outside the
three kinds the specification lists. -/
theorem roomEvents_fourth_type :
    (relayTranscriptionUpdate "sess_1").event ∈ sessionRoomEventNames ∧
    (relayTranscriptionUpdate "sess_1").event ∉ specClaimedRoomEventNames := by
  decide

/-- C4 amended: every event name the server pushes to a session room is
one of the three specified kinds or the transcription-update message
relayed from a client. -/
theorem roomEvents_three_plus_relay (e : String)
    (he : e ∈ sessionRoomEventNames) :
    e ∈ specClaimedRoomEventNames ∨ e = "transcription-update" := by
  simp only [sessionRoomEventNames, List.mem_cons, List.not_mem_nil, or_false] at he
  rcases he with h | h | h | h | h | h <;> subst h <;> decide

/-- Witness for the amended C4 at the summary-failed event. -/
theorem roomEvents_three_plus_relay_witness :
    ("summary-failed" : String) ∈ sessionRoomEventNames ∧
    (("summary-failed" : String) ∈ specClaimedRoomEventNames ∨
      ("summary-failed" : String) = "transcription-update") :=
  ⟨by decide, roomEvents_three_plus_relay "summary-failed" (by decide)⟩

end TransMedix
